import Mathlib

/-
Verification of the Meerschaum Pipe synchronization engine.

Shallow embedding of `meerschaum/Pipe/_sync.py` and `meerschaum/Pipe/_Pipe.py`.
DataFrames are lists of rows; a row is a list of cells, where a cell is
`Option Int` (`none` models a pandas NaN / SQL NULL).  Timestamps are `Int`
seconds.  Helpers that live in repository modules absent from the extract
(`meerschaum.utils.misc.round_time`, `Pipe._attributes.get_columns`, the
instance-connector methods) are modelled from the spec and carry a
`Modelled from the spec:` doc comment.
-/

/-- Cell of a dataframe or storage row: `none` models pandas NaN / SQL NULL. -/
abbrev Cell := Option Int

/-- Row of a dataframe: one cell per column, columns addressed by position. -/
abbrev Row := List Cell

/-- Pipe state relevant to the synchronization engine (`Pipe.__init__` plus the
attributes `sync` reads): immutable identity triple, instance keys, the
resolved connector types, and the two parameter entries sync consults
(`columns:datetime` as a column position, `fetch:backtrack_minutes`). -/
structure Pipe where
  connector_keys : String
  metric_key : String
  location_key : Option String
  instance_keys : String
  instanceType : String
  connectorType : Option String
  dtCol : Option Nat
  fetchBacktrackMinutes : Option Int
deriving DecidableEq

/-- Replace each colon by an underscore, as `connector_keys.replace(':', '_')`
does in `Pipe.__str__` (a one-character pattern, so a character map). -/
def replaceColon (s : String) : String :=
  String.mk (s.data.map (fun c => if c = ':' then '_' else c))

/-- Canonical storage name of a pipe, from `Pipe.__str__` (`_Pipe.py` lines
117-124): connector keys with colons replaced, an underscore, the metric key,
and the location key after one more underscore when present. -/
def pipeStr (p : Pipe) : String :=
  let name := replaceColon p.connector_keys ++ "_" ++ p.metric_key
  match p.location_key with
  | none => name
  | some loc => name ++ "_" ++ loc

/-- Element-wise match used by `df.isin(backtrack_df)`: two cells match when
both hold a value and the values are equal; a NaN never matches anything
(pandas semantics). -/
def cellMatch (a b : Cell) : Bool :=
  match a, b with
  | some x, some y => x == y
  | _, _ => false

/-- Masking step of `df[~df.isin(backtrack_df)]`: a cell that matches the
aligned backtrack cell is replaced by NaN, an unmatched cell is kept. -/
def maskCell (a b : Cell) : Cell :=
  if cellMatch a b then none else a

/-- Mask one fetched row against the backtrack row aligned with it
(columns aligned by position). -/
def maskRow (r btr : Row) : Row :=
  List.zipWith maskCell r btr

/-- Align fetched rows with backtrack rows by position, masking matched cells;
a fetched row beyond the end of the backtrack frame has no aligned row in
`df.isin` and is kept whole. -/
def maskAligned : List Row → List Row → List Row
  | [], _ => []
  | rs, [] => rs
  | r :: rs, b :: bs => maskRow r b :: maskAligned rs bs

/-- Row survives `.dropna(how='all')` exactly when some cell is non-null. -/
def rowKept (r : Row) : Bool :=
  r.any (fun c => c.isSome)

/-- The merge step of `sync` (`_sync.py` line 88):
`df[~df.isin(backtrack_df)].dropna(how='all')`.  `DataFrame.isin` with a
DataFrame argument aligns on index and column labels, hence by position for
the fresh integer indexes both frames carry here. -/
def mergeNew (df bt : List Row) : List Row :=
  (maskAligned df bt).filter rowKept

/-- Row-wise membership dedup as the spec describes the merge step: keep the
fetched rows whose full value-tuple does not appear among the backtrack rows.
Stated from the claim wording, for comparison with `mergeNew`. -/
def keepUnseen (df bt : List Row) : List Row :=
  df.filter (fun r => !(bt.contains r))

/-- Modelled from the spec: `round_time` (in `meerschaum.utils.misc`, absent
from the extract) floor-rounds a timestamp to the default one-minute
granularity when called with `to = 'down'`. -/
def roundTimeDown (t : Int) : Int :=
  60 * Int.fdiv t 60

/-- Timestamp of a row: the cell at the pipe's datetime column position;
`none` when the column is missing or holds NULL. -/
def tsOf (r : Row) (d : Nat) : Option Int :=
  match r.get? d with
  | some c => c
  | none => none

/-- Timestamps present in a frame's datetime column (pandas `.min()` and the
storage queries skip NaN/NULL entries). -/
def tsList (df : List Row) (d : Nat) : List Int :=
  df.filterMap (fun r => tsOf r d)

/-- Modelled from the spec: the instance connector's `get_backtrack_data`
(absent from the extract) retrieves the existing rows in `[begin, now]`,
i.e. the storage rows whose datetime value is at least `begin`. -/
def backtrackRows (s : List Row) (d : Nat) (b : Int) : List Row :=
  s.filter (fun r =>
    match tsOf r d with
    | some t => decide (b ≤ t)
    | none => false)

/-- Modelled from the spec: the instance connector's `get_sync_time` (absent
from the extract) returns the most recent timestamp present in storage, null
when storage holds none. -/
def syncTimeOf (s : List Row) (d : Nat) : Option Int :=
  (tsList s d).max?

/-- World state `sync` reads and writes: the pipe's storage rows, the
registration flag, table existence, and the oracles for the two external
calls (`fetch` result, remote `sync_pipe` result). -/
structure World where
  storage : List Row
  registered : Bool
  tableExists : Bool
  fetchResult : Option (List Row)
  syncPipeResult : Bool × String
deriving DecidableEq

/-- Observable side effects of one `sync` call, in order of occurrence. -/
inductive Effect
  | fetchCall
  | syncPipeCall
  | registerCall
  | createTable
  | createIndices
  | warned (msg : String)
  | backtrackCall (backtrackMinutes startTime : Int)
  | appended (rows : List Row)
deriving DecidableEq

/-- Value returned by `sync`: a `(success, message)` tuple, the bare `None`
of `_sync.py` line 56, or an uncaught exception. -/
inductive SyncResult
  | tup (success : Bool) (message : String)
  | nullRes
  | raised (msg : String)
deriving DecidableEq

/-- Whether a sync result is a `(success, message)` tuple. -/
def SyncResult.isTup : SyncResult → Bool
  | .tup _ _ => true
  | _ => false

/-- Backtrack minutes actually used by `get_backtrack_data` (`_sync.py` lines
109-113): the pipe's `parameters['fetch']['backtrack_minutes']` when that
lookup succeeds, the caller-supplied argument otherwise. -/
def gbdMinutes (p : Pipe) (callerArg : Int) : Int :=
  match p.fetchBacktrackMinutes with
  | some v => v
  | none => callerArg

/-- `Pipe.get_backtrack_data` (`_sync.py` lines 100-122): resolve the
backtrack minutes from the pipe parameters (falling back to the caller
argument), default `begin` to the pipe's sync time, and forward both to the
instance connector.  Returns the forwarded `(backtrack_minutes, begin)`
arguments together with the retrieved rows; the window with no explicit
`begin` is modelled from the spec as the last `backtrack_minutes` minutes
before the sync time. -/
def get_backtrack_data (p : Pipe) (w : World) (d : Nat) (callerArg : Int)
    (begin0 : Option Int) : (Int × Option Int) × List Row :=
  let bm := gbdMinutes p callerArg
  let b := match begin0 with
    | some bv => some bv
    | none => syncTimeOf w.storage d
  ((bm, b),
    match b with
    | some bv => backtrackRows w.storage d bv
    | none => [])

/-- Local (non-delegated) tail of `sync` (`_sync.py` lines 41-98): the
datetime-column requirement (`get_columns` is absent from the extract; the
spec has the orchestrator fail fast with a returned failure when the column
is not declared), registration, the mqtt early success, the bare `None`
return on an empty fetch, bootstrap, backtrack, merge, and append. -/
def syncLocal (p : Pipe) (w : World) (df1 : Option (List Row))
    (effs : List Effect) : SyncResult × World × List Effect :=
  match p.dtCol with
  | none => (.tup false "Missing datetime column in parameters", w, effs)
  | some d =>
    let w1 := if w.registered then w else { w with registered := true }
    let effs1 := if w.registered then effs else effs ++ [Effect.registerCall]
    match df1, p.connectorType with
    | none, some ct =>
      if ct = "mqtt" then (.tup true "Success", w1, effs1)
      else (.nullRes, w1, effs1 ++ [Effect.warned "Was not able to sync"])
    | none, none => (.raised "AttributeError", w1, effs1)
    | some df, _ =>
      let w2 := if w1.tableExists then w1 else { w1 with tableExists := true }
      let effs2 := if w1.tableExists then effs1
        else effs1 ++ [Effect.createTable, Effect.createIndices]
      match (tsList df d).min? with
      | none => (.raised "NaT has no attribute to_pydatetime", w2, effs2)
      | some m =>
        let b := roundTimeDown m - 60
        let out := get_backtrack_data p w2 d 0 (some b)
        let newRows := mergeNew df out.2
        (.tup true "Success",
          { w2 with storage := w2.storage ++ newRows },
          effs2 ++ [Effect.backtrackCall out.1.1 b, Effect.appended newRows])

/-- Remote-delegation check of `sync` (`_sync.py` lines 37-39): when the
instance connector is of type api, forward to its `sync_pipe` and return its
result verbatim; otherwise continue with the local algorithm. -/
def syncApiCheck (p : Pipe) (w : World) (df1 : Option (List Row))
    (effs : List Effect) : SyncResult × World × List Effect :=
  if p.instanceType = "api"
  then (.tup w.syncPipeResult.1 w.syncPipeResult.2, w, effs ++ [Effect.syncPipeCall])
  else syncLocal p w df1 effs

/-- `Pipe.sync` (`_sync.py` lines 12-98).  With no dataframe argument a
non-null source connector is required (lines 32-35) and `fetch` supplies the
data; then the api delegation check and the local algorithm run. -/
def sync (p : Pipe) (w : World) (df0 : Option (List Row)) :
    SyncResult × World × List Effect :=
  match df0, p.connectorType with
  | none, none => (.tup false "Cannot fetch without a connector", w, [])
  | none, some _ => syncApiCheck p w w.fetchResult [Effect.fetchCall]
  | some df, _ => syncApiCheck p w (some df) []

/-- Lazy-attribute cache of a Pipe object (`_Pipe.py` properties `id` and
`sync_time`): the outer `Option` models presence of the entry in
`self.__dict__`, the inner value is what the last resolver call returned.
The call counters count invocations of `get_pipe_id` and `get_sync_time`. -/
structure AttrState where
  idCache : Option (Option Int)
  syncTimeCache : Option (Option Int)
  pipeIdCalls : Nat
  syncTimeCalls : Nat
deriving DecidableEq

/-- Python truthiness of a `get_pipe_id` result: `None` and `0` are falsy. -/
def truthyId (v : Option Int) : Bool :=
  match v with
  | none => false
  | some n => n != 0

/-- Whether the object holds a truthy cached id, the condition
`'_id' in self.__dict__ and self._id` of `_Pipe.py` line 102. -/
def idCached (s : AttrState) : Bool :=
  match s.idCache with
  | some v => truthyId v
  | none => false

/-- The `Pipe.id` property (`_Pipe.py` lines 100-104): unless a truthy id is
cached, call the instance connector's `get_pipe_id` and store its result;
return the cached value.  `g` is the resolver oracle indexed by call count. -/
def idProp (g : Nat → Option Int) (s : AttrState) : Option Int × AttrState :=
  if idCached s then (s.idCache.getD none, s)
  else
    let v := g s.pipeIdCalls
    (v, { s with idCache := some v, pipeIdCalls := s.pipeIdCalls + 1 })

/-- The `Pipe.sync_time` property (`_Pipe.py` lines 106-115): populate the
cache entry by calling `get_sync_time` when absent; when the cached value is
null, delete the entry and return null; otherwise return the cached value. -/
def syncTimeProp (g : Nat → Option Int) (s : AttrState) :
    Option Int × AttrState :=
  let s1 := match s.syncTimeCache with
    | none =>
      { s with
        syncTimeCache := some (g s.syncTimeCalls)
        syncTimeCalls := s.syncTimeCalls + 1 }
    | some _ => s
  match s1.syncTimeCache with
  | some none => (none, { s1 with syncTimeCache := none })
  | some (some t) => (some t, s1)
  | none => (none, s1)

/-- SQL dialects handled by `exists` (`_sync.py` lines 161-166). -/
inductive Flavor
  | timescaledb
  | postgresql
  | mssql
  | mysql
  | mariadb
deriving DecidableEq

/-- Existence-check query forms, one per dialect family: `to_regclass` for
timescaledb/postgresql, `OBJECT_ID` for mssql, `SHOW TABLES LIKE` for
mysql/mariadb. -/
inductive ExistsQuery
  | toRegclass (name : String)
  | objectId (name : String)
  | showTablesLike (name : String)
deriving DecidableEq

/-- Modelled from the spec: `pg_capital` (in `meerschaum.utils.misc`, absent
from the extract) normalizes the name quoting for postgres-family probes; no
claim depends on its content, so it is the identity on names here. -/
def pgCapital (name : String) : String := name

/-- Dialect-specific existence probe built by `exists` for a given flavor and
storage name (`_sync.py` lines 161-166). -/
def existsQuery (f : Flavor) (name : String) : ExistsQuery :=
  match f with
  | .timescaledb | .postgresql => .toRegclass (pgCapital name)
  | .mssql => .objectId name
  | .mysql | .mariadb => .showTablesLike name

/-- Connector registry visible to `exists`: the dialect registered under each
connector key string, and the `conn.value(query)` oracle per connector. -/
structure SqlWorld where
  flavorOf : String → Flavor
  valueOf : String → ExistsQuery → Option Int

/-- `Pipe.exists` (`_sync.py` lines 148-167).  Line 159 assigns
`conn = self.instance_connector` and line 160 immediately overwrites it with
`conn = get_connector('sql', 'main')`, so the probe is issued to the
connector registered under `sql:main`, in that connector's dialect, keyed by
the pipe's canonical storage name.  Returns the `(connector keys, query)`
actually issued and the boolean result (`conn.value(q) is not None`). -/
def existsFn (p : Pipe) (w : SqlWorld) : (String × ExistsQuery) × Bool :=
  let keys := "sql:main"
  let q := existsQuery (w.flavorOf keys) (pipeStr p)
  ((keys, q), (w.valueOf keys q).isSome)

/-- Pipe whose instance connector is `sql:other`, used to exhibit the target
of the existence probe. -/
def pipeOtherInstance : Pipe :=
  { connector_keys := "sql:src"
    metric_key := "cpu"
    location_key := none
    instance_keys := "sql:other"
    instanceType := "sql"
    connectorType := some "sql"
    dtCol := some 0
    fetchBacktrackMinutes := none }

/-- Registry in which `sql:main` is a postgresql connector while every other
connector, in particular `sql:other`, is mssql. -/
def sqlWorldMixed : SqlWorld :=
  { flavorOf := fun k => if k = "sql:main" then Flavor.postgresql else Flavor.mssql
    valueOf := fun _ _ => none }

/-- Pipe with a resolvable non-mqtt source connector, a sql instance
connector, and a declared datetime column at position 0. -/
def pipeSqlSource : Pipe :=
  { connector_keys := "sql:src"
    metric_key := "cpu"
    location_key := none
    instance_keys := "sql:main"
    instanceType := "sql"
    connectorType := some "sql"
    dtCol := some 0
    fetchBacktrackMinutes := none }

/-- World in which the pipe is registered with an existing empty table and
`fetch` yields no rows. -/
def worldEmptyFetch : World :=
  { storage := []
    registered := true
    tableExists := true
    fetchResult := none
    syncPipeResult := (true, "Success") }

/-- World holding one stored row with timestamp 60, for the sync-time
monotonicity witness. -/
def worldOneRow : World :=
  { storage := [[some 60]]
    registered := true
    tableExists := true
    fetchResult := none
    syncPipeResult := (true, "Success") }

/-- Fresh attribute cache with no entries and no resolver calls yet. -/
def attrStateInit : AttrState :=
  { idCache := none
    syncTimeCache := none
    pipeIdCalls := 0
    syncTimeCalls := 0 }

theorem maskCell_self (a : Cell) : maskCell a a = none := by
  cases a <;> simp [maskCell, cellMatch]

theorem maskAligned_nil (df : List Row) : maskAligned df [] = df := by
  cases df <;> rfl

theorem rowKept_maskRow_self (r : Row) : rowKept (maskRow r r) = false := by
  induction r with
  | nil => rfl
  | cons a as ih =>
    simp only [maskRow, List.zipWith_cons_cons, rowKept, List.any_cons,
      maskCell_self, Option.isSome_none, Bool.false_or] at ih ⊢
    exact ih

theorem mergeNew_self (df : List Row) : mergeNew df df = [] := by
  induction df with
  | nil => rfl
  | cons r rs ih =>
    simp only [mergeNew, maskAligned, List.filter_cons, rowKept_maskRow_self] at ih ⊢
    exact ih

theorem rowKept_of_ts {r : Row} {d : Nat} (h : (tsOf r d).isSome = true) :
    rowKept r = true := by
  unfold tsOf at h
  cases hg : r.get? d with
  | none => rw [hg] at h; simp at h
  | some c =>
    rw [hg] at h
    have hc : c ∈ r := List.get?_mem hg
    simp only [rowKept, List.any_eq_true]
    exact ⟨c, hc, h⟩

theorem mergeNew_nil_bt {df : List Row} (h : ∀ r ∈ df, rowKept r = true) :
    mergeNew df [] = df := by
  unfold mergeNew
  rw [maskAligned_nil, List.filter_eq_self]
  exact h

theorem backtrackRows_all {s : List Row} {d : Nat} {b : Int}
    (h : ∀ r ∈ s, ∃ t, tsOf r d = some t ∧ b ≤ t) :
    backtrackRows s d b = s := by
  unfold backtrackRows
  rw [List.filter_eq_self]
  intro r hr
  obtain ⟨t, ht, hbt⟩ := h r hr
  rw [ht]
  simpa using hbt

theorem tsList_ne_nil {df : List Row} {d : Nat} (h0 : df ≠ [])
    (h : ∀ r ∈ df, (tsOf r d).isSome = true) : tsList df d ≠ [] := by
  cases df with
  | nil => exact absurd rfl h0
  | cons r rs =>
    have hr := h r (List.mem_cons_self r rs)
    obtain ⟨t, ht⟩ := Option.isSome_iff_exists.mp hr
    simp [tsList, List.filterMap_cons, ht]

theorem min?_le_all {l : List Int} {m : Int} (h : l.min? = some m) :
    ∀ t ∈ l, m ≤ t :=
  (List.le_min?_iff (fun _ _ _ => le_min_iff) h).mp le_rfl

theorem roundTimeDown_le (m : Int) : roundTimeDown m ≤ m := by
  have h1 := Int.fdiv_add_fmod m 60
  have h2 := Int.fmod_nonneg' m (by norm_num : (0 : Int) < 60)
  unfold roundTimeDown
  omega

theorem tsList_append (s e : List Row) (d : Nat) :
    tsList (s ++ e) d = tsList s d ++ tsList e d :=
  List.filterMap_append s e _

theorem max?_append_ge {l1 l2 : List Int} {t : Int} (h : l1.max? = some t) :
    ∃ t2, (l1 ++ l2).max? = some t2 ∧ t ≤ t2 := by
  have h1 : l1 ≠ [] := by
    intro he
    rw [he] at h
    simp [List.max?] at h
  have h2 : l1 ++ l2 ≠ [] := List.append_ne_nil_of_left_ne_nil h1 l2
  cases hm : (l1 ++ l2).max? with
  | none => exact absurd (List.max?_eq_none_iff.mp hm) h2
  | some t2 =>
    refine ⟨t2, rfl, ?_⟩
    have hmem : t ∈ l1 := List.max?_mem max_choice h
    have hall := (List.max?_le_iff (fun _ _ _ => max_le_iff) hm).mp le_rfl
    exact hall t (List.mem_append_left l2 hmem)

theorem sync_eval (p : Pipe) (w : World) (df : List Row) (d : Nat) (m : Int)
    (hapi : p.instanceType ≠ "api") (hd : p.dtCol = some d)
    (hmin : (tsList df d).min? = some m) :
    sync p w (some df) =
      (SyncResult.tup true "Success",
       { w with
          storage := w.storage ++
            mergeNew df (backtrackRows w.storage d (roundTimeDown m - 60))
          registered := true
          tableExists := true },
       ((if w.registered then [] else [Effect.registerCall]) ++
        (if w.tableExists then [] else [Effect.createTable, Effect.createIndices])) ++
       [Effect.backtrackCall (gbdMinutes p 0) (roundTimeDown m - 60),
        Effect.appended
          (mergeNew df (backtrackRows w.storage d (roundTimeDown m - 60)))]) := by
  obtain ⟨st, reg, te, fr, sp⟩ := w
  cases reg <;> cases te <;>
    simp [sync, syncApiCheck, syncLocal, get_backtrack_data, hapi, hd, hmin]

theorem sync_storage_prefix (p : Pipe) (w : World) (df0 : Option (List Row)) :
    w.storage <+: (sync p w df0).2.1.storage := by
  obtain ⟨st, reg, te, fr, sp⟩ := w
  rcases df0 with _ | df <;> rcases hc : p.connectorType with _ | ct <;>
    rcases hd : p.dtCol with _ | d <;>
    by_cases hapi : p.instanceType = "api" <;>
    cases reg <;> cases te <;>
    rcases fr with _ | fdf <;>
    simp [sync, syncApiCheck, syncLocal, get_backtrack_data, hc, hd, hapi] <;>
    first
      | exact List.prefix_refl st
      | exact List.prefix_append st _
      | (split <;>
          first
            | exact List.prefix_refl st
            | exact List.prefix_append st _)

/-- C3: for every pipe whose source connector resolves to null, calling sync
with no rows argument returns the failure tuple
`(false, "Cannot fetch without a connector")`, leaves the world untouched and
performs no fetch, registration, merge, or storage write (empty effect list). -/
theorem c3_no_connector_failure (p : Pipe) (w : World) :
    sync { p with connectorType := none } w none =
      (SyncResult.tup false "Cannot fetch without a connector", w, []) := rfl

/-- C4: for every pipe whose instance connector is of the api class, sync with
supplied rows forwards to the connector's `sync_pipe` and returns its result
verbatim, leaves the world untouched, and performs none of the local steps:
the only effect is the `sync_pipe` call (no registration, bootstrap,
backtrack, or append). -/
theorem c4_api_delegation (p : Pipe) (w : World) (df : List Row) :
    sync { p with instanceType := "api" } w (some df) =
      (SyncResult.tup w.syncPipeResult.1 w.syncPipeResult.2, w,
       [Effect.syncPipeCall]) := by
  simp [sync, syncApiCheck]

/-- C7: for every pipe, the canonical storage name is the connector keys with
each colon replaced by an underscore, an underscore, the metric key, and an
underscore plus the location key exactly when the location key is present;
in particular `("sql:main", "cpu", "server1")` yields `sql_main_cpu_server1`
and `("api:prod", "mem", null)` yields `api_prod_mem`. -/
theorem c7_canonical_name :
    (∀ ck mk ik it ct dc fb, pipeStr ⟨ck, mk, none, ik, it, ct, dc, fb⟩ =
        replaceColon ck ++ "_" ++ mk) ∧
    (∀ ck mk loc ik it ct dc fb, pipeStr ⟨ck, mk, some loc, ik, it, ct, dc, fb⟩ =
        replaceColon ck ++ "_" ++ mk ++ "_" ++ loc) ∧
    pipeStr ⟨"sql:main", "cpu", some "server1", "sql:main", "sql", none, none, none⟩ =
      "sql_main_cpu_server1" ∧
    pipeStr ⟨"api:prod", "mem", none, "sql:main", "sql", none, none, none⟩ =
      "api_prod_mem" :=
  ⟨fun _ _ _ _ _ _ _ => rfl, fun _ _ _ _ _ _ _ _ => rfl, by decide, by decide⟩

/-- C10: in every call to `get_backtrack_data`, a `fetch.backtrack_minutes`
entry in the pipe parameters silently replaces the caller-supplied
`backtrack_minutes` argument in what is forwarded to the instance connector,
and the caller-supplied argument is forwarded only when the parameter entry
is absent. -/
theorem c10_backtrack_param_override (p : Pipe) (w : World) (d : Nat)
    (arg v : Int) (b0 : Option Int) :
    (get_backtrack_data { p with fetchBacktrackMinutes := some v } w d arg b0).1.1 =
      v ∧
    (get_backtrack_data { p with fetchBacktrackMinutes := none } w d arg b0).1.1 =
      arg :=
  ⟨rfl, rfl⟩

/-- C8: the claim says the existence probe targets the dialect of the pipe's
own instance connector; in the code, `exists` overwrites the instance
connector with `get_connector('sql', 'main')` (a dead store at `_sync.py`
line 159, overwritten at line 160), so for a pipe whose instance connector is
`sql:other` of mssql dialect while `sql:main` is postgresql, the probe issued
is the postgresql `to_regclass` form against `sql:main`, not the mssql
`OBJECT_ID` form against `sql:other`. -/
theorem c8_exists_targets_main :
    pipeOtherInstance.instance_keys = "sql:other" ∧
    sqlWorldMixed.flavorOf pipeOtherInstance.instance_keys = Flavor.mssql ∧
    (existsFn pipeOtherInstance sqlWorldMixed).1.1 = "sql:main" ∧
    (existsFn pipeOtherInstance sqlWorldMixed).1.2 =
      ExistsQuery.toRegclass "sql_src_cpu" ∧
    (existsFn pipeOtherInstance sqlWorldMixed).2 = false :=
  ⟨rfl, rfl, rfl, rfl, rfl⟩

/-- C1 counterexample: the merge step is not the row-wise membership test the
claim describes.  With fetched rows `[1]` and `[2]` and backtrack rows `[2]`
and `[1]` (the same value-tuples, in the other order), every fetched
value-tuple appears among the backtrack rows, so the claimed membership test
keeps nothing, yet the code's positionally-aligned `isin` mask keeps both
rows. -/
theorem c1_counterexample :
    mergeNew [[some 1], [some 2]] [[some 2], [some 1]] =
      [[some 1], [some 2]] ∧
    keepUnseen [[some 1], [some 2]] [[some 2], [some 1]] = [] := by decide

/-- C2 counterexample: when fetch yields no rows and the source is not mqtt,
sync does not return a `(success, message)` tuple: it returns the bare null
of `_sync.py` line 56. -/
theorem c2_counterexample :
    (sync pipeSqlSource worldEmptyFetch none).1 = SyncResult.nullRes ∧
    SyncResult.isTup (sync pipeSqlSource worldEmptyFetch none).1 = false := by
  decide

/-- C2 (amended): sync returns a `(success, message)` tuple without raising
for the missing-connector and (spec-modelled `get_columns`) missing-datetime
failure modes; but when fetch yields no rows and the source is not mqtt, sync
warns and returns the bare null of `_sync.py` line 56 — a neutral no-success
signal that is not a `(success, message)` tuple. -/
theorem c2_failure_discipline (p : Pipe) (w : World) (df : List Row)
    (ct : String) (d : Nat) (hct : ct ≠ "mqtt") (hfr : w.fetchResult = none) :
    (sync { p with connectorType := none } w none).1 =
      SyncResult.tup false "Cannot fetch without a connector" ∧
    (sync { p with instanceType := "sql", dtCol := none } w (some df)).1 =
      SyncResult.tup false "Missing datetime column in parameters" ∧
    (sync { p with instanceType := "sql", connectorType := some ct, dtCol := some d } w none).1 =
      SyncResult.nullRes ∧
    Effect.warned "Was not able to sync" ∈
      (sync { p with instanceType := "sql", connectorType := some ct, dtCol := some d } w none).2.2 := by
  obtain ⟨st, reg, te, fr, sp⟩ := w
  dsimp only at hfr
  subst hfr
  refine ⟨rfl, ?_, ?_, ?_⟩ <;> cases reg <;>
    simp [sync, syncApiCheck, syncLocal, hct]

theorem c2_witness :
    ("sql" ≠ "mqtt" ∧ worldEmptyFetch.fetchResult = none) ∧
    (sync { pipeSqlSource with connectorType := none } worldEmptyFetch none).1 =
      SyncResult.tup false "Cannot fetch without a connector" ∧
    (sync { pipeSqlSource with instanceType := "sql", dtCol := none }
        worldEmptyFetch (some [[some 1]])).1 =
      SyncResult.tup false "Missing datetime column in parameters" ∧
    (sync { pipeSqlSource with instanceType := "sql", connectorType := some "sql", dtCol := some 0 }
        worldEmptyFetch none).1 = SyncResult.nullRes ∧
    Effect.warned "Was not able to sync" ∈
      (sync { pipeSqlSource with instanceType := "sql", connectorType := some "sql", dtCol := some 0 }
        worldEmptyFetch none).2.2 :=
  ⟨⟨by decide, rfl⟩,
   c2_failure_discipline pipeSqlSource worldEmptyFetch [[some 1]] "sql" 0
     (by decide) rfl⟩

/-- C5: for every non-empty fetched row set with a declared datetime column
(and a non-delegated instance connector), sync passes to the backtrack
retrieval a begin equal to the minimum timestamp among the fetched rows,
floor-rounded to one-minute granularity, minus one additional minute; `m`
below is that minimum (it is a fetched timestamp and bounds all of them) and
the begin passed lies strictly below it. -/
theorem c5_backtrack_begin (p : Pipe) (w : World) (df : List Row) (d : Nat)
    (m : Int) (hapi : p.instanceType ≠ "api") (hd : p.dtCol = some d)
    (hmin : (tsList df d).min? = some m) :
    Effect.backtrackCall (gbdMinutes p 0) (roundTimeDown m - 60) ∈
      (sync p w (some df)).2.2 ∧
    m ∈ tsList df d ∧ (∀ t ∈ tsList df d, m ≤ t) ∧
    roundTimeDown m - 60 < m := by
  refine ⟨?_, List.min?_mem (fun _ _ => min_choice _ _) hmin,
    min?_le_all hmin, by have := roundTimeDown_le m; omega⟩
  rw [sync_eval p w df d m hapi hd hmin]
  simp

theorem c5_witness :
    Effect.backtrackCall (gbdMinutes pipeSqlSource 0) (roundTimeDown 125 - 60) ∈
      (sync pipeSqlSource worldOneRow (some [[some 125]])).2.2 ∧
    roundTimeDown 125 - 60 < 125 := by
  have h := c5_backtrack_begin pipeSqlSource worldOneRow [[some 125]] 0 125
    (by decide) rfl (by decide)
  exact ⟨h.1, h.2.2.2⟩

/-- C6: for every pipe with a non-null sync time, after any sync call the
sync time (most recent timestamp present in storage) is at least its value
before the call: sync only appends rows to storage. -/
theorem c6_sync_time_monotone (p : Pipe) (w : World) (df0 : Option (List Row))
    (d : Nat) (t : Int) (h : syncTimeOf w.storage d = some t) :
    ∃ t2, syncTimeOf (sync p w df0).2.1.storage d = some t2 ∧ t ≤ t2 := by
  obtain ⟨ext, hext⟩ := sync_storage_prefix p w df0
  rw [← hext]
  unfold syncTimeOf at h ⊢
  rw [tsList_append]
  exact max?_append_ge h

theorem c6_witness :
    ∃ t2, syncTimeOf (sync pipeSqlSource worldOneRow none).2.1.storage 0 =
      some t2 ∧ (60 : Int) ≤ t2 :=
  c6_sync_time_monotone pipeSqlSource worldOneRow none 0 60 (by decide)

/-- C9: falsy lazy attributes are never cached as truthy values.  When
`get_pipe_id` returns a falsy id, the `id` property leaves no truthy cached
value, so the next access calls `get_pipe_id` again (the call counter
advances on both accesses); when `get_sync_time` returns null, the
`sync_time` property returns null and removes the cache entry, so the next
access calls `get_sync_time` again. -/
theorem c9_falsy_never_cached (gId gSt : Nat → Option Int) (s : AttrState)
    (h1 : idCached s = false) (h2 : truthyId (gId s.pipeIdCalls) = false)
    (h3 : s.syncTimeCache = none) (h4 : gSt s.syncTimeCalls = none) :
    idCached (idProp gId s).2 = false ∧
    (idProp gId s).2.pipeIdCalls = s.pipeIdCalls + 1 ∧
    (idProp gId (idProp gId s).2).2.pipeIdCalls = s.pipeIdCalls + 2 ∧
    (syncTimeProp gSt s).1 = none ∧
    (syncTimeProp gSt s).2.syncTimeCache = none ∧
    (syncTimeProp gSt (syncTimeProp gSt s).2).2.syncTimeCalls =
      s.syncTimeCalls + 2 := by
  have hid1 : (idProp gId s).2 =
      { s with idCache := some (gId s.pipeIdCalls),
               pipeIdCalls := s.pipeIdCalls + 1 } := by
    simp [idProp, h1]
  have hidc : idCached (idProp gId s).2 = false := by
    rw [hid1]; simpa [idCached] using h2
  refine ⟨hidc, by rw [hid1], ?_, ?_, ?_, ?_⟩
  · rw [idProp, if_neg (by rw [hidc]; exact Bool.false_ne_true), hid1]
  · simp [syncTimeProp, h3, h4]
  · simp [syncTimeProp, h3, h4]
  · have hst1 : (syncTimeProp gSt s).2 =
        { s with syncTimeCache := none,
                 syncTimeCalls := s.syncTimeCalls + 1 } := by
      simp [syncTimeProp, h3, h4]
    rw [syncTimeProp, hst1]
    rcases hg2 : gSt (s.syncTimeCalls + 1) with _ | t2 <;> simp [hg2]

theorem c9_witness :
    (idCached attrStateInit = false ∧
     truthyId ((fun _ => (none : Option Int)) attrStateInit.pipeIdCalls) = false ∧
     attrStateInit.syncTimeCache = none ∧
     (fun _ => (none : Option Int)) attrStateInit.syncTimeCalls = none) ∧
    idCached (idProp (fun _ => none) attrStateInit).2 = false ∧
    (idProp (fun _ => none) attrStateInit).2.pipeIdCalls =
      attrStateInit.pipeIdCalls + 1 ∧
    (idProp (fun _ => none)
      (idProp (fun _ => none) attrStateInit).2).2.pipeIdCalls =
      attrStateInit.pipeIdCalls + 2 ∧
    (syncTimeProp (fun _ => none) attrStateInit).1 = none ∧
    (syncTimeProp (fun _ => none) attrStateInit).2.syncTimeCache = none ∧
    (syncTimeProp (fun _ => none)
      (syncTimeProp (fun _ => none) attrStateInit).2).2.syncTimeCalls =
      attrStateInit.syncTimeCalls + 2 :=
  ⟨⟨rfl, rfl, rfl, rfl⟩,
   c9_falsy_never_cached (fun _ => none) (fun _ => none) attrStateInit
     rfl rfl rfl rfl⟩

theorem rowCount_one {l : List Row} {r : Row} (hnd : l.Nodup) (hr : r ∈ l) :
    List.count r l = 1 := by
  induction l with
  | nil => cases hr
  | cons a as ih =>
    obtain ⟨hna, hnas⟩ := List.nodup_cons.mp hnd
    rw [List.count_cons]
    rcases List.mem_cons.mp hr with h | h
    · subst h
      rw [List.count_eq_zero.mpr hna]
      simp
    · have hne : a ≠ r := fun he => hna (he ▸ h)
      rw [ih hnas h]
      simp [hne]

/-- C1 (amended): the merge step is a positionally-aligned element-wise
comparison (pandas `isin` with a DataFrame argument matches on index and
column position, not row-wise membership: see the counterexample).  Starting
from empty storage, syncing a duplicate-free fetched row set whose rows all
carry a datetime value and then syncing the same rows again leaves storage
holding exactly the fetched rows: the second call's new-subset is empty
(because the backtrack rows return at the same positions) and each distinct
row is stored exactly once. -/
theorem c1_merge_positional_idempotence (p : Pipe) (w : World) (df : List Row)
    (d : Nat) (hapi : p.instanceType ≠ "api") (hd : p.dtCol = some d)
    (hstore : w.storage = []) (hdf : df ≠ [])
    (hts : ∀ r ∈ df, (tsOf r d).isSome = true) (hnd : df.Nodup) :
    (sync p w (some df)).2.1.storage = df ∧
    Effect.appended [] ∈ (sync p (sync p w (some df)).2.1 (some df)).2.2 ∧
    (sync p (sync p w (some df)).2.1 (some df)).2.1.storage = df ∧
    ∀ r ∈ df,
      List.count r (sync p (sync p w (some df)).2.1 (some df)).2.1.storage = 1 := by
  obtain ⟨m, hmin⟩ : ∃ m, (tsList df d).min? = some m := by
    cases hm : (tsList df d).min? with
    | none => exact absurd (List.min?_eq_none_iff.mp hm) (tsList_ne_nil hdf hts)
    | some m => exact ⟨m, rfl⟩
  have hrows : ∀ r ∈ df, rowKept r = true := fun r hr => rowKept_of_ts (hts r hr)
  have h1 := sync_eval p w df d m hapi hd hmin
  have hs1 : (sync p w (some df)).2.1.storage = df := by
    rw [h1]
    simp [hstore, backtrackRows, mergeNew_nil_bt hrows]
  have h2 := sync_eval p (sync p w (some df)).2.1 df d m hapi hd hmin
  have hbound : ∀ r ∈ df, ∃ t, tsOf r d = some t ∧ roundTimeDown m - 60 ≤ t := by
    intro r hr
    obtain ⟨t, ht⟩ := Option.isSome_iff_exists.mp (hts r hr)
    refine ⟨t, ht, ?_⟩
    have htl : t ∈ tsList df d := List.mem_filterMap.mpr ⟨r, hr, ht⟩
    have hmt := min?_le_all hmin t htl
    have hrd := roundTimeDown_le m
    omega
  have hbt2 : backtrackRows (sync p w (some df)).2.1.storage d
      (roundTimeDown m - 60) = df := by
    rw [hs1]
    exact backtrackRows_all hbound
  have hs2 : (sync p (sync p w (some df)).2.1 (some df)).2.1.storage = df := by
    rw [h2]
    dsimp only
    rw [hbt2, mergeNew_self, List.append_nil, hs1]
  refine ⟨hs1, ?_, hs2, ?_⟩
  · rw [h2]
    dsimp only
    rw [hbt2, mergeNew_self]
    simp
  · intro r hr
    rw [hs2]
    exact rowCount_one hnd hr

theorem c1_witness :
    (sync pipeSqlSource worldEmptyFetch (some [[some 120, some 5]])).2.1.storage =
      [[some 120, some 5]] ∧
    Effect.appended [] ∈
      (sync pipeSqlSource
        (sync pipeSqlSource worldEmptyFetch (some [[some 120, some 5]])).2.1
        (some [[some 120, some 5]])).2.2 ∧
    List.count [some 120, some 5]
      (sync pipeSqlSource
        (sync pipeSqlSource worldEmptyFetch (some [[some 120, some 5]])).2.1
        (some [[some 120, some 5]])).2.1.storage = 1 := by
  have h := c1_merge_positional_idempotence pipeSqlSource worldEmptyFetch
    [[some 120, some 5]] 0 (by decide) rfl rfl (by decide) (by decide)
    (by decide)
  exact ⟨h.1, h.2.1, h.2.2.2 _ (by decide)⟩
